import Mathlib

/-!
A shallow embedding of the agent-loop repository (src/agent/agent.py,
src/tools/fda_tool.py, src/tools/neo4j_tool.py, src/tools/pdf_rag_tool.py).

Conventions of the embedding:
* The LLM is an oracle `resp : Nat → AIMessage` giving the model's response at
  each round of the loop (the code's `call_model`, whose network round-trip is
  outside the program).  Tool backends (the FDA HTTP response, the Neo4j QA
  chain invocation, the PDF similarity search) are likewise oracles; a Python
  exception raised by such a backend is an `Except.error` carrying `str(e)`.
* The unbounded `while True` loop of `agent` is embedded with a fuel
  parameter; `none` means the loop did not finish within the given fuel
  (the Python loop has no round cap, so divergence is representable).
* `json.dumps` output is rendered by simple executable serializers; the exact
  indentation of Python's `indent=2` is abstracted, the carried data is not.
* Python truthiness of the four `Optional[str]` configuration parameters is
  modelled exactly: `None` and `""` are falsy.
-/

namespace AgentSpec

/-- Python's string containment test `pat in s` (used by fda_tool.py as
`"TRAMADOL" in name.upper()`). -/
def pyIn (pat s : String) : Bool := decide (pat.toList <:+: s.toList)

/-- Python's `str.upper()` (character-wise uppercase). -/
def pyUpper (s : String) : String := String.mk (s.toList.map Char.toUpper)

/-- The single-quote character, used to render Python's `str(KeyError(k))`,
which is the key wrapped in single quotes. -/
def pyQuote : String := String.singleton (Char.ofNat 39)

/-! ## Data model: messages and tool calls (langchain message shapes) -/

/-- A tool invocation request as found in `AIMessage.tool_calls`
(`tool_call["name"]`, `tool_call["args"]`, `tool_call["id"]`).  The argument
mapping is kept as its opaque rendered form. -/
structure ToolCall where
  name : String
  args : String
  id : String
deriving DecidableEq, Repr

/-- An assistant response: content plus zero or more tool invocation
requests. -/
structure AIMessage where
  content : String
  tool_calls : List ToolCall
deriving DecidableEq, Repr

/-- `langchain_core.messages.ToolMessage(content=..., tool_call_id=...)`. -/
structure ToolMessage where
  content : String
  tool_call_id : String
deriving DecidableEq, Repr

/-- A message in the conversation history. -/
inductive Message where
  | human (content : String)
  | ai (m : AIMessage)
  | tool (m : ToolMessage)
deriving DecidableEq, Repr

/-- `langgraph.graph.message.add_messages` on freshly created messages
(none of the appended messages carries an existing id, so the reducer is a
plain append). -/
def add_messages (left right : List Message) : List Message := left ++ right

/-! ## src/tools/fda_tool.py -/

/-- One entry of `result["patient"]["drug"]` in the openFDA response. -/
structure ApiDrug where
  medicinalproduct : Option String
deriving DecidableEq, Repr

/-- One entry of `result["patient"]["reaction"]`. -/
structure ApiReaction where
  reactionmeddrapt : Option String
  reactionoutcome : Option String
deriving DecidableEq, Repr

/-- The `result["patient"]` object; absent keys are `none`. -/
structure ApiPatient where
  drug : Option (List ApiDrug)
  reaction : Option (List ApiReaction)
deriving DecidableEq, Repr

/-- One element of the openFDA `results` array. -/
structure ApiResult where
  receivedate : Option String
  safetyreportid : Option String
  patient : Option ApiPatient
deriving DecidableEq, Repr

/-- The decoded JSON body returned by `requests.get(url).json()`. -/
structure ApiResponse where
  results : Option (List ApiResult)
deriving DecidableEq, Repr

/-- One record of the `useful_data` list built by `get_adverse_events`. -/
structure UsefulRecord where
  receivedate : String
  safetyreportid : String
  drug_names : List String
  reactions : List String
  outcomes : List String
deriving DecidableEq, Repr

/-- The per-result extraction step of the `for result in ...` loop in
`get_adverse_events`: `.get` defaults produce the "N/A" sentinel, and a drug
name is kept only when `"TRAMADOL" in name.upper()` (a literal in the
source). -/
def extractRecord (result : ApiResult) : UsefulRecord :=
  { receivedate := result.receivedate.getD "N/A"
    safetyreportid := result.safetyreportid.getD "N/A"
    drug_names :=
      match result.patient with
      | none => []
      | some p =>
        match p.drug with
        | none => []
        | some drugs =>
          (drugs.map (fun d => d.medicinalproduct.getD "N/A")).filter
            (fun name => pyIn "TRAMADOL" (pyUpper name))
    reactions :=
      match result.patient with
      | none => []
      | some p =>
        match p.reaction with
        | none => []
        | some rs => rs.map (fun r => r.reactionmeddrapt.getD "N/A")
    outcomes :=
      match result.patient with
      | none => []
      | some p =>
        match p.reaction with
        | none => []
        | some rs => rs.map (fun r => r.reactionoutcome.getD "N/A") }

/-- `get_adverse_events(drug_name, limit)`.  `drug_name` and `limit` shape
only the request URL; the HTTP exchange is outside the program, so the decoded
response body is passed as the oracle argument `response`. -/
def get_adverse_events (drug_name : String) (limit : Nat) (response : ApiResponse) :
    List UsefulRecord :=
  let _ := drug_name
  let _ := limit
  (response.results.getD []).map extractRecord

/-! ## JSON rendering (models `json.dumps`; indentation abstracted) -/

/-- Renders a JSON string value (escaping abstracted). -/
def jsonStr (s : String) : String := "\"" ++ s ++ "\""

/-- Renders a JSON array. -/
def jsonArr (items : List String) : String :=
  "[" ++ String.intercalate ", " items ++ "]"

/-- Renders one `useful_data` record as a JSON object. -/
def UsefulRecord.json (r : UsefulRecord) : String :=
  "\x7b\"receivedate\": " ++ jsonStr r.receivedate ++
  ", \"safetyreportid\": " ++ jsonStr r.safetyreportid ++
  ", \"drug_names\": " ++ jsonArr (r.drug_names.map jsonStr) ++
  ", \"reactions\": " ++ jsonArr (r.reactions.map jsonStr) ++
  ", \"outcomes\": " ++ jsonArr (r.outcomes.map jsonStr) ++ "\x7d"

/-! ## src/tools/neo4j_tool.py and src/tools/pdf_rag_tool.py (state shapes) -/

/-- The state of a `Neo4jTool` instance.  `chain` is `some invoke` when
`connect()` and `initialize_qa_chain()` both succeeded, where `invoke` is the
oracle for `self.chain.invoke({"query": question})` (an `Except.error` is a
raised exception, carried as `str(e)`). -/
structure Neo4jState where
  URI : Option String
  username : Option String
  password : Option String
  connected : Bool
  chain : Option (String → Except String String)

/-- `Neo4jTool.ask_question`: returns the chain answer (a Python object,
kept in rendered form), or the error strings of its two failure branches. -/
def ask_question (ns : Neo4jState) (question : String) : String :=
  match ns.chain with
  | none => "Error: QA chain not initialized"
  | some invoke =>
    match invoke question with
    | .ok result => result
    | .error e => "Error: " ++ e

/-- A retrieved document (`page_content` and rendered `metadata`). -/
structure PdfDoc where
  page_content : String
  metadata : String
deriving DecidableEq, Repr

/-- The state of a `PDFTool` instance.  `vector_store` is `some search` when
`create_vector_store` succeeded, where `search` is the oracle for
`search_text` (retrieved docs and generated answer, or a raised exception). -/
structure PdfState where
  vector_store : Option (String → Except String (List PdfDoc × String))

/-! ## The three registered tool wrappers (src/agent/agent.py) -/

/-- `fda_adverse_events_tool`: the underlying callable `get_adverse_events`
is abstracted as the oracle `impl` (already applied to the parsed arguments;
an `Except.error` is a raised exception).  On success the records are
serialized with `json.dumps`; on a raised exception the wrapper returns the
error string instead of propagating. -/
def fda_adverse_events_tool (impl : String → Except String (List UsefulRecord))
    (args : String) : String :=
  match impl args with
  | .ok results => jsonArr (results.map UsefulRecord.json)
  | .error e => "Error retrieving FDA data: " ++ e

/-- `neo4j_query_tool`: guards on the global `neo4j_tool` being set, then
delegates to `ask_question` (which itself never raises) and applies `str`. -/
def neo4j_query_tool (st : Option Neo4jState) (question : String) : String :=
  match st with
  | none => "Error: Neo4j tool not initialized"
  | some ns => ask_question ns question

/-- `pdf_search_tool`: guards on the global `pdf_tool` and its vector store,
then runs `search_text`; a raised exception becomes an error string, success
is serialized as the `retrieved_documents`/`answer`/`total_documents`
object. -/
def pdf_search_tool (st : Option PdfState) (question : String) : String :=
  match st with
  | none => "Error: PDF tool not initialized. Please check the initialization logs."
  | some ps =>
    match ps.vector_store with
    | none => "Error: PDF vector store not initialized. The PDF file may not have been loaded successfully during initialization."
    | some search =>
      match search question with
      | .error e => "Error searching PDF: " ++ e
      | .ok (docs, answer) =>
        "\x7b\"retrieved_documents\": " ++
          jsonArr (docs.map fun d =>
            "\x7b\"page_content\": " ++ jsonStr d.page_content ++
            ", \"metadata\": " ++ d.metadata ++ "\x7d") ++
        ", \"answer\": " ++ jsonStr answer ++
        ", \"total_documents\": " ++ toString docs.length ++ "\x7d"

/-! ## Configuration lifecycle (module-level globals of src/agent/agent.py) -/

/-- The module-level mutable state of agent.py: the four environment
variables written by `initialize_agent_with_config`, the two tool instances,
the model, the registry `tools_by_name`, and the `_initialized` flag.
`tools` (the list handed to `bind_tools`) is kept as the list of names. -/
structure AgentState where
  env_openai_api_key : Option String
  env_neo4j_uri : Option String
  env_neo4j_username : Option String
  env_neo4j_password : Option String
  neo4j_tool : Option Neo4jState
  pdf_tool : Option PdfState
  model : Option String
  tools : List String
  tools_by_name : List (String × (String → String))
  inited : Bool

/-- The outcome oracles for the side-effecting parts of setup: the underlying
FDA callable, the QA-chain invocation backend, the PDF search backend, and
whether the two fallible setup stages succeed (`pdf_ok`: the PDF file is found
and `create_vector_store` returns; `neo4j_ok`: `connect` and
`initialize_qa_chain` both yield a usable chain). -/
structure Backends where
  fdaImpl : String → Except String (List UsefulRecord)
  chainInvoke : String → Except String String
  pdfSearch : String → Except String (List PdfDoc × String)
  pdf_ok : Bool
  neo4j_ok : Bool

/-- The fresh state with every global reset (`reset_agent`, and also the
state of a newly imported module). -/
def reset_state : AgentState :=
  { env_openai_api_key := none
    env_neo4j_uri := none
    env_neo4j_username := none
    env_neo4j_password := none
    neo4j_tool := none
    pdf_tool := none
    model := none
    tools := []
    tools_by_name := []
    inited := false }

/-- `reset_agent()`: closes the driver (an external effect) and nils out all
globals. -/
def reset_agent (_s : AgentState) : AgentState := reset_state

/-- The registry `tools_by_name = {tool.name: tool for tool in tools}` built
during setup, dispatching to the three wrappers over the given tool states. -/
def buildRegistry (b : Backends) (neo : Option Neo4jState) (pdf : Option PdfState) :
    List (String × (String → String)) :=
  [("fda_adverse_events_tool", fda_adverse_events_tool b.fdaImpl),
   ("neo4j_query_tool", neo4j_query_tool neo),
   ("pdf_search_tool", pdf_search_tool pdf)]

/-- `initialize_agent_with_config(openai_api_key, neo4j_uri, neo4j_username,
neo4j_password)`: a no-op when `_initialized` is already set (the guard runs
before anything is written); otherwise writes the environment variables,
builds the two tool instances (the exceptions of the PDF vector-store stage
are caught and swallowed, and the Neo4j stage reports failure by leaving the
chain unset), builds the model and the registry, and sets `_initialized`. -/
def init_agent_with_config (b : Backends)
    (openai_api_key neo4j_uri neo4j_username neo4j_password : String)
    (s : AgentState) : AgentState :=
  if s.inited then s
  else
    let neoState : Neo4jState :=
      { URI := some neo4j_uri
        username := some neo4j_username
        password := some neo4j_password
        connected := b.neo4j_ok
        chain := if b.neo4j_ok then some b.chainInvoke else none }
    let pdfState : PdfState :=
      { vector_store := if b.pdf_ok then some b.pdfSearch else none }
    { env_openai_api_key := some openai_api_key
      env_neo4j_uri := some neo4j_uri
      env_neo4j_username := some neo4j_username
      env_neo4j_password := some neo4j_password
      neo4j_tool := some neoState
      pdf_tool := some pdfState
      model := some openai_api_key
      tools := ["fda_adverse_events_tool", "neo4j_query_tool", "pdf_search_tool"]
      tools_by_name := buildRegistry b (some neoState) (some pdfState)
      inited := true }

/-! ## Dispatch and the agent loop (src/agent/agent.py) -/

/-- Exceptions that can escape the loop body: the `KeyError` raised by
`tools_by_name[tool_call["name"]]` on an unregistered name, and the
`ValueError` raised by `call_tool`/`call_model` guard clauses. -/
inductive AgentErr where
  | keyError (key : String)
  | valueError (msg : String)
deriving DecidableEq, Repr

/-- Python's `str(e)` for the two exception shapes (`str` of a `KeyError`
wraps the key in single quotes). -/
def AgentErr.pyStr : AgentErr → String
  | .keyError k => pyQuote ++ k ++ pyQuote
  | .valueError m => m

/-- `call_tool(tool_call)`: raises `ValueError` when the registry is empty
(agent never initialized), raises `KeyError` when the name is unregistered,
otherwise invokes the registered callable and wraps the observation in a
`ToolMessage` keyed by the request's id. -/
def call_tool (registry : List (String × (String → String))) (tc : ToolCall) :
    Except AgentErr ToolMessage :=
  if registry.isEmpty then
    .error (.valueError "Tools not initialized. Call initialize_agent_with_config() first.")
  else
    match registry.lookup tc.name with
    | none => .error (.keyError tc.name)
    | some f => .ok { content := f tc.args, tool_call_id := tc.id }

/-- One batch of tool dispatches (`[call_tool(tc) for tc in tool_calls]`
followed by `[fut.result() for fut in futures]`, sequentially in request
order): the results of the dispatches preceding the first raised exception,
and that exception when there is one. -/
def runBatch (dispatch : ToolCall → Except AgentErr ToolMessage) :
    List ToolCall → List ToolMessage × Option AgentErr
  | [] => ([], none)
  | tc :: rest =>
    match dispatch tc with
    | .error e => ([], some e)
    | .ok tm =>
      let (tms, err) := runBatch dispatch rest
      (tm :: tms, err)

/-- The `while True` loop of `agent`, with `resp k` the model's response at
round `k` and `fuel` the embedding's round budget (`none` = still looping
when the budget runs out; the source loop is uncapped).  A tool-call-free
response ends the loop; the pair returned carries the final response together
with the history at that point (the history is returned so that theorems can
speak about it; the source returns only the response). -/
def agentLoop (resp : Nat → AIMessage) (dispatch : ToolCall → Except AgentErr ToolMessage) :
    Nat → Nat → List Message → Option (Except AgentErr (AIMessage × List Message))
  | 0, _, _ => none
  | fuel + 1, k, messages =>
    let r := resp k
    if r.tool_calls.isEmpty then
      some (.ok (r, messages))
    else
      match runBatch dispatch r.tool_calls with
      | (_, some e) => some (.error e)
      | (tms, none) =>
        agentLoop resp dispatch fuel (k + 1)
          (add_messages messages (Message.ai r :: tms.map Message.tool))

/-- The history after the first `j` tool rounds starting at round `k`
(each completed round appends the assistant response followed by its tool
results, in request order). -/
def roundHist (resp : Nat → AIMessage) (dispatch : ToolCall → Except AgentErr ToolMessage) :
    Nat → List Message → Nat → List Message
  | _, msgs, 0 => msgs
  | k, msgs, j + 1 =>
    let r := resp k
    let tms := (runBatch dispatch r.tool_calls).1
    roundHist resp dispatch (k + 1)
      (add_messages msgs (Message.ai r :: tms.map Message.tool)) j

/-- The four `Optional[str]` configuration parameters of
`run_agent`/`run_agent_with_streaming`. -/
structure Config where
  openai_api_key : Option String
  neo4j_uri : Option String
  neo4j_username : Option String
  neo4j_password : Option String
deriving DecidableEq, Repr

/-- Python truthiness of an `Optional[str]`: `None` and `""` are falsy. -/
def truthy : Option String → Bool
  | none => false
  | some s => !s.isEmpty

/-- `all([openai_api_key, neo4j_uri, neo4j_username, neo4j_password])`. -/
def Config.complete (c : Config) : Bool :=
  truthy c.openai_api_key && truthy c.neo4j_uri &&
  truthy c.neo4j_username && truthy c.neo4j_password

/-- The literal returned or yielded when the agent is not initialized and the
configuration is incomplete. -/
def configErrorMsg : String :=
  "Error: Agent not initialized. Please provide all configuration parameters."

/-- How a finished loop outcome surfaces as answer text: the final
response's `.content` on success, the outermost `except` rendering
`"Error running agent: " + str(e)` on a raised exception. -/
def loopOutStr : Except AgentErr (AIMessage × List Message) → String
  | .ok (r, _) => r.content
  | .error e => "Error running agent: " ++ e.pyStr

/-- `run_agent(question, ...)`.  `inited` is the `_initialized` global;
when the configuration is complete and the agent uninitialized the source
initializes it first (a step that only builds the state the oracles already
stand for), and `dispatch` stands for `call_tool` over the resulting
registry.  Any exception escaping the loop is caught by the outermost
`except` and rendered as `"Error running agent: " + str(e)`; otherwise the
final response's `.content` is returned. -/
def run_agent (resp : Nat → AIMessage) (dispatch : ToolCall → Except AgentErr ToolMessage)
    (fuel : Nat) (inited : Bool) (question : String) (cfg : Config) : Option String :=
  if !cfg.complete && !inited then
    some configErrorMsg
  else
    (agentLoop resp dispatch fuel 0 [Message.human question]).map loopOutStr

/-! ## The streaming variant (`run_agent_with_streaming`) -/

/-- One yielded step dictionary. -/
structure StepEvent where
  task_name : String
  content : String
  step_type : String
  is_final : Bool
deriving DecidableEq, Repr

/-- The `call_model` event of a round whose response requests tools. -/
def decisionEvent (r : AIMessage) : StepEvent :=
  { task_name := "call_model"
    content := "🤔 Thinking and deciding which tools to use...\n\n" ++
      String.intercalate "\n\n"
        (r.tool_calls.map fun tc => "Tool: " ++ tc.name ++ "\nArguments: " ++ tc.args)
    step_type := "tool_decision"
    is_final := false }

/-- The `call_tool` event of one tool execution. -/
def toolEvent (tm : ToolMessage) : StepEvent :=
  { task_name := "call_tool"
    content := "🔧 Executing tool...\n\nResult:\n" ++ tm.content
    step_type := "tool_execution"
    is_final := false }

/-- The `call_model` event of the tool-call-free final round. -/
def finalEvent (r : AIMessage) : StepEvent :=
  { task_name := "call_model"
    content := r.content
    step_type := "final_answer"
    is_final := true }

/-- The terminal event yielded by the two `except`/guard branches. -/
def errorEvent (msg : String) : StepEvent :=
  { task_name := "error"
    content := msg
    step_type := "error"
    is_final := true }

/-- The event sequence produced by iterating `agent.stream` from round `k`:
per completed `call_model` task one `tool_decision` or `final_answer` event,
per completed `call_tool` task one `tool_execution` event (the final `agent`
update is skipped by the `continue`).  An exception escaping the stream is
caught by the outermost `except`, which yields one terminal `error` event.
`none` = the loop is still running when the fuel budget runs out. -/
def streamLoop (resp : Nat → AIMessage) (dispatch : ToolCall → Except AgentErr ToolMessage) :
    Nat → Nat → Option (List StepEvent)
  | 0, _ => none
  | fuel + 1, k =>
    let r := resp k
    if r.tool_calls.isEmpty then
      some [finalEvent r]
    else
      match runBatch dispatch r.tool_calls with
      | (tms, some e) =>
        some (decisionEvent r :: tms.map toolEvent ++
          [errorEvent ("Error running agent: " ++ e.pyStr)])
      | (tms, none) =>
        (streamLoop resp dispatch fuel (k + 1)).map
          (fun evs => decisionEvent r :: tms.map toolEvent ++ evs)

/-- `run_agent_with_streaming(question, ...)`: the guard branch yields a
single terminal error event; otherwise the events of the streamed loop. -/
def run_agent_with_streaming (resp : Nat → AIMessage)
    (dispatch : ToolCall → Except AgentErr ToolMessage)
    (fuel : Nat) (inited : Bool) (question : String) (cfg : Config) :
    Option (List StepEvent) :=
  let _ := question
  if !cfg.complete && !inited then
    some [errorEvent configErrorMsg]
  else
    streamLoop resp dispatch fuel 0

/-- The contents of the events flagged `is_final` in a streamed turn. -/
def finalContents (evs : List StepEvent) : List String :=
  (evs.filter fun e => e.is_final).map fun e => e.content

/-! ## Concrete fixtures, used to instantiate the theorems -/

/-- A concrete set of backends whose three underlying callables succeed. -/
def demoBackends : Backends :=
  { fdaImpl := fun _ => .ok []
    chainInvoke := fun q => .ok ("graph answer to " ++ q)
    pdfSearch := fun _ => .ok ([], "pdf answer")
    pdf_ok := true
    neo4j_ok := true }

/-- The module state after a successful setup over `demoBackends`. -/
def demoState : AgentState :=
  init_agent_with_config demoBackends "sk-key" "bolt://localhost:7687" "neo4j" "pw"
    reset_state

/-- The registry of the demo state. -/
def demoRegistry : List (String × (String → String)) := demoState.tools_by_name

/-- A response sequence: round 0 requests the FDA and the graph tool, every
later round is tool-call-free. -/
def demoResp : Nat → AIMessage := fun k =>
  if k = 0 then
    { content := ""
      tool_calls := [{ name := "fda_adverse_events_tool", args := "TRAMADOL", id := "id1" },
                     { name := "neo4j_query_tool", args := "what interacts", id := "id2" }] }
  else { content := "FINAL ANSWER", tool_calls := [] }

/-- The tool results of `demoResp`'s round-0 batch over `demoRegistry`. -/
def demoTms : List ToolMessage :=
  [{ content := "[]", tool_call_id := "id1" },
   { content := "graph answer to what interacts", tool_call_id := "id2" }]

/-- A response sequence whose round 0 requests a tool name absent from the
manifest and whose round 1 would be a final answer. -/
def unknownToolResp : Nat → AIMessage := fun k =>
  if k = 0 then
    { content := "", tool_calls := [{ name := "bogus_tool", args := "x", id := "id9" }] }
  else { content := "NEVER REACHED", tool_calls := [] }

/-- A complete configuration (all four parameters truthy). -/
def demoConfig : Config :=
  { openai_api_key := some "sk-key"
    neo4j_uri := some "bolt://localhost:7687"
    neo4j_username := some "neo4j"
    neo4j_password := some "pw" }

/-- The events streamed for the demo turn. -/
def demoEvs : List StepEvent :=
  [decisionEvent (demoResp 0),
   toolEvent { content := "[]", tool_call_id := "id1" },
   toolEvent { content := "graph answer to what interacts", tool_call_id := "id2" },
   finalEvent (demoResp 1)]

/-- The events streamed for the unknown-tool turn. -/
def unknownToolEvs : List StepEvent :=
  [decisionEvent (unknownToolResp 0),
   errorEvent ("Error running agent: " ++ pyQuote ++ "bogus_tool" ++ pyQuote)]

/-- Backends whose two fallible setup stages fail (PDF file missing, Neo4j
unreachable). -/
def failedSetupBackends : Backends :=
  { fdaImpl := fun _ => .ok []
    chainInvoke := fun _ => .ok "unused"
    pdfSearch := fun _ => .ok ([], "unused")
    pdf_ok := false
    neo4j_ok := false }

/-- Backends whose three underlying callables all raise. -/
def raisingBackends : Backends :=
  { fdaImpl := fun _ => .error "ConnectionError"
    chainInvoke := fun _ => .error "ServiceUnavailable"
    pdfSearch := fun _ => .error "IndexError"
    pdf_ok := true
    neo4j_ok := true }

/-- A response sequence: round 0 requests the FDA tool, round 1 is final. -/
def fdaOnlyResp : Nat → AIMessage := fun k =>
  if k = 0 then
    { content := ""
      tool_calls := [{ name := "fda_adverse_events_tool", args := "TRAMADOL", id := "c7" }] }
  else { content := "RECOVERED ANSWER", tool_calls := [] }

/-- An openFDA response fixture for a query about ASPIRIN: the first result
lists ASPIRIN and a tramadol co-medication and lacks the outcome code, the
second result is an empty object. -/
def aspirinApiResponse : ApiResponse :=
  { results := some
      [{ receivedate := some "20240312"
         safetyreportid := some "12345"
         patient := some
           { drug := some [{ medicinalproduct := some "ASPIRIN" },
                           { medicinalproduct := some "Tramadol HCl" }]
             reaction := some [{ reactionmeddrapt := some "NAUSEA"
                                 reactionoutcome := none }] } },
       { receivedate := none, safetyreportid := none, patient := none }] }

/-! ## Helper lemmas -/

/-- A successful `call_tool` keys its `ToolMessage` by the request's id. -/
theorem call_tool_id (registry : List (String × (String → String))) (tc : ToolCall)
    (tm : ToolMessage) (h : call_tool registry tc = .ok tm) :
    tm.tool_call_id = tc.id := by
  unfold call_tool at h
  split at h
  · exact absurd h (by simp)
  · cases hl : registry.lookup tc.name <;> rw [hl] at h
    · exact absurd h (by simp)
    · cases h; rfl

/-- In a successfully dispatched batch, the result ids are exactly the
request ids, in request order (for any dispatcher that keys results by the
request id, as `call_tool` does). -/
theorem runBatch_ids (dispatch : ToolCall → Except AgentErr ToolMessage)
    (hd : ∀ tc tm, dispatch tc = .ok tm → tm.tool_call_id = tc.id) :
    ∀ tcs tms, runBatch dispatch tcs = (tms, none) →
      tms.map (fun t => t.tool_call_id) = tcs.map (fun t => t.id)
  | [], tms, h => by
    simp only [runBatch] at h
    cases h; rfl
  | tc :: rest, tms, h => by
    simp only [runBatch] at h
    cases hdisp : dispatch tc <;> rw [hdisp] at h
    · exact absurd (congrArg Prod.snd h) (by simp)
    · next tm =>
      have h1 : tms = tm :: (runBatch dispatch rest).1 := by
        have := congrArg Prod.fst h
        simpa using this.symm
      have h2 : (runBatch dispatch rest).2 = none := by
        have := congrArg Prod.snd h
        simpa using this
      subst h1
      simp only [List.map_cons]
      rw [hd tc tm hdisp,
        runBatch_ids dispatch hd rest (runBatch dispatch rest).1 (by
          cases hr : runBatch dispatch rest
          · simp only [hr] at h2 ⊢; rw [h2])]

/-- A successfully dispatched batch yields one result per request. -/
theorem runBatch_length (dispatch : ToolCall → Except AgentErr ToolMessage)
    (hd : ∀ tc tm, dispatch tc = .ok tm → tm.tool_call_id = tc.id)
    (tcs : List ToolCall) (tms : List ToolMessage)
    (h : runBatch dispatch tcs = (tms, none)) : tms.length = tcs.length := by
  have := congrArg List.length (runBatch_ids dispatch hd tcs tms h)
  simpa using this

/-- In a batch whose request ids are pairwise distinct, a given id selects
exactly one request. -/
theorem filter_id_length_one :
    ∀ (l : List ToolCall) (x : String),
      (l.map (fun t => t.id)).Nodup → x ∈ l.map (fun t => t.id) →
      (l.filter (fun tc => tc.id = x)).length = 1
  | [], x, _, hx => absurd hx (by simp)
  | tc :: rest, x, hnd, hx => by
    rw [List.map_cons, List.nodup_cons] at hnd
    rw [List.map_cons, List.mem_cons] at hx
    rcases hx with hx | hx
    · subst hx
      have hnone : rest.filter (fun t => t.id = tc.id) = [] := by
        rw [List.filter_eq_nil_iff]
        intro a ha
        simp only [decide_eq_true_eq]
        intro heq
        exact hnd.1 (heq ▸ List.mem_map_of_mem (fun t => t.id) ha)
      simp [List.filter_cons, hnone]
    · have hne : ¬(tc.id = x) := fun h => hnd.1 (h ▸ hx)
      rw [List.filter_cons]
      simp only [decide_eq_true_eq, hne, if_false]
      exact filter_id_length_one rest x hnd.2 hx

/-- `finalContents` drops an event that is not flagged final. -/
theorem finalContents_cons_nonfinal (e : StepEvent) (l : List StepEvent)
    (h : e.is_final = false) : finalContents (e :: l) = finalContents l := by
  simp [finalContents, h]

/-- `finalContents` distributes over append. -/
theorem finalContents_append (a b : List StepEvent) :
    finalContents (a ++ b) = finalContents a ++ finalContents b := by
  simp [finalContents]

/-- Tool-execution events are never flagged final. -/
theorem finalContents_toolEvents (tms : List ToolMessage) :
    finalContents (tms.map toolEvent) = [] := by
  induction tms with
  | nil => rfl
  | cons t ts ih => rw [List.map_cons, finalContents_cons_nonfinal _ _ rfl, ih]

/-- When the loop finishes, the streamed turn finishes too and carries
exactly one event flagged final, whose content is the text `run_agent` would
return for that outcome. -/
theorem streamLoop_finalContents (resp : Nat → AIMessage)
    (dispatch : ToolCall → Except AgentErr ToolMessage) :
    ∀ (fuel k : Nat) (msgs : List Message)
      (out : Except AgentErr (AIMessage × List Message)),
      agentLoop resp dispatch fuel k msgs = some out →
      ∃ evs, streamLoop resp dispatch fuel k = some evs ∧
        finalContents evs = [loopOutStr out]
  | 0, k, msgs, out, h => absurd h (by simp [agentLoop])
  | fuel + 1, k, msgs, out, h => by
    by_cases he : (resp k).tool_calls.isEmpty
    · have hout : Except.ok ((resp k), msgs) = out := by
        simpa [agentLoop, he] using h
      exact ⟨[finalEvent (resp k)], by simp [streamLoop, he],
        by rw [← hout]; simp [finalContents, finalEvent, loopOutStr]⟩
    · cases hb : runBatch dispatch (resp k).tool_calls with
      | mk tms err =>
        cases err with
        | some e =>
          have hout : Except.error e = out := by
            simpa [agentLoop, he, hb] using h
          refine ⟨decisionEvent (resp k) :: tms.map toolEvent ++
            [errorEvent ("Error running agent: " ++ e.pyStr)],
            by simp [streamLoop, he, hb], ?_⟩
          rw [← hout, finalContents_append,
            finalContents_cons_nonfinal (decisionEvent (resp k)) _ rfl,
            finalContents_toolEvents]
          simp [finalContents, errorEvent, loopOutStr]
        | none =>
          have hrec : agentLoop resp dispatch fuel (k + 1)
              (add_messages msgs (Message.ai (resp k) :: tms.map Message.tool)) =
              some out := by
            simpa [agentLoop, he, hb] using h
          obtain ⟨evs, hevs, hfin⟩ := streamLoop_finalContents resp dispatch fuel (k + 1)
            (add_messages msgs (Message.ai (resp k) :: tms.map Message.tool)) out hrec
          refine ⟨decisionEvent (resp k) :: tms.map toolEvent ++ evs,
            by simp [streamLoop, he, hb, hevs], ?_⟩
          rw [finalContents_append,
            finalContents_cons_nonfinal (decisionEvent (resp k)) _ rfl,
            finalContents_toolEvents, hfin]
          rfl

/-- When the loop ends in a raised exception, the streamed turn ends with the
terminal error event and every event before it is neither final nor of kind
error. -/
theorem streamLoop_error_terminal (resp : Nat → AIMessage)
    (dispatch : ToolCall → Except AgentErr ToolMessage) :
    ∀ (fuel k : Nat) (msgs : List Message) (e : AgentErr) (evs : List StepEvent),
      agentLoop resp dispatch fuel k msgs = some (.error e) →
      streamLoop resp dispatch fuel k = some evs →
      ∃ pre, evs = pre ++ [errorEvent ("Error running agent: " ++ e.pyStr)]
        ∧ ∀ ev ∈ pre, ev.is_final = false ∧ ev.step_type ≠ "error"
  | 0, k, msgs, e, evs, h, _ => absurd h (by simp [agentLoop])
  | fuel + 1, k, msgs, e, evs, h, hs => by
    by_cases he : (resp k).tool_calls.isEmpty
    · have hcalc : agentLoop resp dispatch (fuel + 1) k msgs =
          some (.ok (resp k, msgs)) := by simp [agentLoop, he]
      exact absurd (hcalc.symm.trans h) (by simp)
    · cases hb : runBatch dispatch (resp k).tool_calls with
      | mk tms err =>
        cases err with
        | some e' =>
          have hcalc : agentLoop resp dispatch (fuel + 1) k msgs =
              some (.error e') := by
            simp [agentLoop, he, hb]
          have he' : e' = e :=
            Except.error.inj (Option.some.inj (hcalc.symm.trans h))
          subst he'
          have hscalc : streamLoop resp dispatch (fuel + 1) k =
              some (decisionEvent (resp k) :: tms.map toolEvent ++
                [errorEvent ("Error running agent: " ++ e'.pyStr)]) := by
            simp [streamLoop, he, hb]
          have hevs : decisionEvent (resp k) :: tms.map toolEvent ++
              [errorEvent ("Error running agent: " ++ e'.pyStr)] = evs :=
            Option.some.inj (hscalc.symm.trans hs)
          refine ⟨decisionEvent (resp k) :: tms.map toolEvent, by rw [← hevs], ?_⟩
          intro ev hev
          rcases List.mem_cons.mp hev with hd | htl
          · subst hd; exact ⟨rfl, by simp [decisionEvent]⟩
          · obtain ⟨tm, _, htm⟩ := List.mem_map.mp htl
            rw [← htm]
            exact ⟨rfl, by simp [toolEvent]⟩
        | none =>
          have hrec : agentLoop resp dispatch fuel (k + 1)
              (add_messages msgs (Message.ai (resp k) :: tms.map Message.tool)) =
              some (.error e) := by
            simpa [agentLoop, he, hb] using h
          cases hs' : streamLoop resp dispatch fuel (k + 1) with
          | none =>
            have hscalc : streamLoop resp dispatch (fuel + 1) k = none := by
              simp [streamLoop, he, hb, hs']
            exact absurd (hscalc.symm.trans hs) (by simp)
          | some evs' =>
            obtain ⟨pre, hpre, hprop⟩ := streamLoop_error_terminal resp dispatch fuel
              (k + 1) (add_messages msgs (Message.ai (resp k) :: tms.map Message.tool))
              e evs' hrec hs'
            have hscalc : streamLoop resp dispatch (fuel + 1) k =
                some (decisionEvent (resp k) :: tms.map toolEvent ++ evs') := by
              simp [streamLoop, he, hb, hs']
            have hevs : decisionEvent (resp k) :: tms.map toolEvent ++ evs' = evs :=
              Option.some.inj (hscalc.symm.trans hs)
            refine ⟨decisionEvent (resp k) :: tms.map toolEvent ++ pre, ?_, ?_⟩
            · rw [← hevs, hpre]; simp
            · intro ev hev
              rcases List.mem_cons.mp hev with hd | htl
              · subst hd; exact ⟨rfl, by simp [decisionEvent]⟩
              · rcases List.mem_append.mp htl with hm | hp
                · obtain ⟨tm, _, htm⟩ := List.mem_map.mp hm
                  rw [← htm]
                  exact ⟨rfl, by simp [toolEvent]⟩
                · exact hprop ev hp

/-! ## Claim theorems -/

/-- C1: in a round whose model response carries tool invocation requests and
whose batch dispatches without a raised exception, exactly one Tool Result is
produced per request; the result ids are the request ids in request order;
when the request ids are pairwise distinct every result id selects exactly
one request of the batch; and the loop continues as the same loop on the
history extended by the assistant response followed by the Tool Results in
request order — i.e. that appended history is what the next model invocation
sees. -/
theorem c1_batch_one_result_per_request
    (registry : List (String × (String → String))) (resp : Nat → AIMessage)
    (fuel k : Nat) (msgs : List Message) (tms : List ToolMessage)
    (hne : (resp k).tool_calls.isEmpty = false)
    (hok : runBatch (call_tool registry) (resp k).tool_calls = (tms, none)) :
    tms.length = (resp k).tool_calls.length
    ∧ tms.map (fun t => t.tool_call_id) = (resp k).tool_calls.map (fun t => t.id)
    ∧ (((resp k).tool_calls.map (fun t => t.id)).Nodup →
        ∀ tm ∈ tms,
          ((resp k).tool_calls.filter (fun tc => tc.id = tm.tool_call_id)).length = 1)
    ∧ agentLoop resp (call_tool registry) (fuel + 1) k msgs =
        agentLoop resp (call_tool registry) fuel (k + 1)
          (add_messages msgs (Message.ai (resp k) :: tms.map Message.tool)) := by
  have hids := runBatch_ids (call_tool registry) (call_tool_id registry)
    (resp k).tool_calls tms hok
  refine ⟨runBatch_length _ (call_tool_id registry) _ _ hok, hids, ?_, ?_⟩
  · intro hnd tm htm
    exact filter_id_length_one _ _ hnd
      (hids ▸ List.mem_map_of_mem (fun t => t.tool_call_id) htm)
  · simp [agentLoop, hne, hok]

/-- C1 witness: the round-0 batch of `demoResp` over the demo registry. -/
theorem c1_witness :
    (demoResp 0).tool_calls.isEmpty = false
    ∧ runBatch (call_tool demoRegistry) (demoResp 0).tool_calls = (demoTms, none)
    ∧ demoTms.length = (demoResp 0).tool_calls.length
    ∧ agentLoop demoResp (call_tool demoRegistry) 1 0 [Message.human "q"] =
        agentLoop demoResp (call_tool demoRegistry) 0 1
          (add_messages [Message.human "q"]
            (Message.ai (demoResp 0) :: demoTms.map Message.tool)) :=
  ⟨by decide, by rfl,
   (c1_batch_one_result_per_request demoRegistry demoResp 0 0 [Message.human "q"]
      demoTms (by decide) (by rfl)).1,
   (c1_batch_one_result_per_request demoRegistry demoResp 0 0 [Message.human "q"]
      demoTms (by decide) (by rfl)).2.2.2⟩

/-- Whatever the dispatcher does, the loop finishes once some round's
response is tool-call-free and the fuel covers that round (each earlier round
either completes its batch or ends the turn with the raised exception). -/
theorem agentLoop_halts (resp : Nat → AIMessage) :
    ∀ (N k fuel : Nat) (msgs : List Message)
      (dispatch : ToolCall → Except AgentErr ToolMessage),
      N < fuel → (resp (k + N)).tool_calls = [] →
      agentLoop resp dispatch fuel k msgs ≠ none
  | 0, k, 0, _, _, hf, _ => absurd hf (by omega)
  | 0, k, fuel + 1, msgs, dispatch, _, hN => by
    rw [Nat.add_zero] at hN
    simp [agentLoop, hN]
  | N + 1, k, 0, _, _, hf, _ => absurd hf (by omega)
  | N + 1, k, fuel + 1, msgs, dispatch, hf, hN => by
    by_cases he : (resp k).tool_calls.isEmpty
    · simp [agentLoop, he]
    · cases hb : runBatch dispatch (resp k).tool_calls with
      | mk tms err =>
        cases err with
        | some e => simp [agentLoop, he, hb]
        | none =>
          have hN' : (resp (k + 1 + N)).tool_calls = [] := by
            have : k + 1 + N = k + (N + 1) := by omega
            rw [this]; exact hN
          have := agentLoop_halts resp N (k + 1) fuel
            (add_messages msgs (Message.ai (resp k) :: tms.map Message.tool))
            dispatch (by omega) hN'
          simpa [agentLoop, he, hb] using this

/-- When every round before the first tool-call-free round `k + N` requests
tools and dispatches its whole batch without a raised exception, the loop
started at round `k` returns that round's response together with the history
accumulated over the `N` completed tool rounds. -/
theorem agentLoop_reaches (resp : Nat → AIMessage)
    (dispatch : ToolCall → Except AgentErr ToolMessage) :
    ∀ (N k fuel : Nat) (msgs : List Message),
      N < fuel →
      (resp (k + N)).tool_calls = [] →
      (∀ j, j < N → (resp (k + j)).tool_calls ≠ []) →
      (∀ j, j < N → (runBatch dispatch (resp (k + j)).tool_calls).2 = none) →
      agentLoop resp dispatch fuel k msgs =
        some (.ok (resp (k + N), roundHist resp dispatch k msgs N))
  | 0, k, 0, _, hf, _, _, _ => absurd hf (by omega)
  | 0, k, fuel + 1, msgs, _, hN, _, _ => by
    rw [Nat.add_zero] at hN ⊢
    simp [agentLoop, roundHist, hN]
  | N + 1, k, 0, _, hf, _, _, _ => absurd hf (by omega)
  | N + 1, k, fuel + 1, msgs, hf, hN, hfirst, hok => by
    have he : (resp k).tool_calls.isEmpty = false := by
      have := hfirst 0 (by omega)
      rw [Nat.add_zero] at this
      simpa using this
    cases hb : runBatch dispatch (resp k).tool_calls with
    | mk tms err =>
      have herr : err = none := by
        have := hok 0 (by omega)
        rw [Nat.add_zero, hb] at this
        exact this
      subst herr
      have hshift : ∀ j, k + 1 + j = k + (j + 1) := fun j => by omega
      have hrec := agentLoop_reaches resp dispatch N (k + 1) fuel
        (add_messages msgs (Message.ai (resp k) :: tms.map Message.tool))
        (by omega)
        (by rw [hshift N]; exact hN)
        (fun j hj => by rw [hshift j]; exact hfirst (j + 1) (by omega))
        (fun j hj => by rw [hshift j]; exact hok (j + 1) (by omega))
      calc agentLoop resp dispatch (fuel + 1) k msgs
          = agentLoop resp dispatch fuel (k + 1)
              (add_messages msgs (Message.ai (resp k) :: tms.map Message.tool)) := by
            simp [agentLoop, he, hb]
        _ = some (.ok (resp (k + 1 + N),
              roundHist resp dispatch (k + 1)
                (add_messages msgs (Message.ai (resp k) :: tms.map Message.tool)) N)) := hrec
        _ = some (.ok (resp (k + (N + 1)), roundHist resp dispatch k msgs (N + 1))) := by
            rw [hshift N]
            simp [roundHist, hb]

/-- C2: when the model-response sequence first turns tool-call-free at round
`N` and every earlier batch dispatches without a raised exception, the agent
loop terminates within `N + 1` rounds (it terminates for every dispatcher,
even a failing one), returns that tool-call-free response with the history as
of round `N` — round `N` appends nothing — and `run_agent` returns that
response's content as the final answer. -/
theorem c2_eventual_final_response_terminates
    (resp : Nat → AIMessage) (dispatch : ToolCall → Except AgentErr ToolMessage)
    (N fuel : Nat) (question : String) (cfg : Config)
    (hN : (resp N).tool_calls = [])
    (hfirst : ∀ j, j < N → (resp j).tool_calls ≠ [])
    (hok : ∀ j, j < N → (runBatch dispatch (resp j).tool_calls).2 = none)
    (hfuel : N < fuel) :
    (∀ d : ToolCall → Except AgentErr ToolMessage,
        agentLoop resp d fuel 0 [Message.human question] ≠ none)
    ∧ agentLoop resp dispatch fuel 0 [Message.human question] =
        some (.ok (resp N, roundHist resp dispatch 0 [Message.human question] N))
    ∧ run_agent resp dispatch fuel true question cfg = some (resp N).content := by
  have hreach := agentLoop_reaches resp dispatch N 0 fuel [Message.human question]
    hfuel (by simpa using hN) (fun j hj => by simpa using hfirst j hj)
    (fun j hj => by simpa using hok j hj)
  rw [Nat.zero_add] at hreach
  refine ⟨fun d => agentLoop_halts resp N 0 fuel _ d hfuel (by simpa using hN), hreach, ?_⟩
  simp [run_agent, hreach, loopOutStr]

/-- C2 witness: `demoResp` turns tool-call-free at round 1 and the demo turn
finishes with its content. -/
theorem c2_witness :
    (demoResp 1).tool_calls = []
    ∧ run_agent demoResp (call_tool demoRegistry) 3 true "q" demoConfig =
        some "FINAL ANSWER" :=
  ⟨by decide, by
    have h := c2_eventual_final_response_terminates demoResp (call_tool demoRegistry)
      1 3 "q" demoConfig (by decide) (fun j hj => by interval_cases j; decide)
      (fun j hj => by interval_cases j; rfl) (by omega)
    exact h.2.2⟩

/-- C3: for one fixed deterministic sequence of model responses and tool
outcomes, whenever the non-streaming call returns an answer and the streaming
call returns an event sequence, the streamed events carry exactly one event
flagged `is_final` and its content is the non-streaming answer — over every
configuration, initialization state and fuel, including the
incomplete-configuration and raised-exception outcomes. -/
theorem c3_streaming_final_equals_run_agent
    (resp : Nat → AIMessage) (dispatch : ToolCall → Except AgentErr ToolMessage)
    (fuel : Nat) (inited : Bool) (question : String) (cfg : Config)
    (ans : String) (evs : List StepEvent)
    (h1 : run_agent resp dispatch fuel inited question cfg = some ans)
    (h2 : run_agent_with_streaming resp dispatch fuel inited question cfg = some evs) :
    finalContents evs = [ans] := by
  unfold run_agent at h1
  unfold run_agent_with_streaming at h2
  by_cases hc : (!cfg.complete && !inited) = true
  · rw [if_pos hc] at h1 h2
    have hans : configErrorMsg = ans := Option.some.inj h1
    have hevs : [errorEvent configErrorMsg] = evs := Option.some.inj h2
    rw [← hans, ← hevs]
    simp [finalContents, errorEvent]
  · rw [if_neg hc] at h1 h2
    cases hl : agentLoop resp dispatch fuel 0 [Message.human question] with
    | none => rw [hl] at h1; exact absurd h1 (by simp)
    | some out =>
      rw [hl] at h1
      have hans : loopOutStr out = ans := Option.some.inj h1
      obtain ⟨evs', hevs', hfin⟩ :=
        streamLoop_finalContents resp dispatch fuel 0 [Message.human question] out hl
      have : evs' = evs := Option.some.inj (hevs'.symm.trans h2)
      rw [← this, hfin, hans]

/-- C3 witness: the demo turn, non-streaming and streaming. -/
theorem c3_witness :
    run_agent demoResp (call_tool demoRegistry) 3 true "q" demoConfig =
        some "FINAL ANSWER"
    ∧ run_agent_with_streaming demoResp (call_tool demoRegistry) 3 true "q" demoConfig =
        some demoEvs
    ∧ finalContents demoEvs = ["FINAL ANSWER"] :=
  ⟨rfl, rfl,
   c3_streaming_final_equals_run_agent demoResp (call_tool demoRegistry) 3 true "q"
     demoConfig "FINAL ANSWER" demoEvs rfl rfl⟩

/-- C9: when the loop of a streamed turn (run with a complete configuration
or an initialized agent) ends in a raised exception — so no final-answer
event was produced — the streamed events consist of non-final, non-error
events followed by exactly one terminal `error` event that is flagged
`is_final` and carries the failure description, with nothing after it; that
error event is also the only event flagged final. -/
theorem c9_stream_exception_yields_single_terminal_error
    (resp : Nat → AIMessage) (dispatch : ToolCall → Except AgentErr ToolMessage)
    (fuel : Nat) (inited : Bool) (question : String) (cfg : Config)
    (e : AgentErr) (evs : List StepEvent)
    (hcfg : (!cfg.complete && !inited) = false)
    (hloop : agentLoop resp dispatch fuel 0 [Message.human question] = some (.error e))
    (hstream : run_agent_with_streaming resp dispatch fuel inited question cfg =
      some evs) :
    (∃ pre, evs = pre ++ [errorEvent ("Error running agent: " ++ e.pyStr)]
      ∧ ∀ ev ∈ pre, ev.is_final = false ∧ ev.step_type ≠ "error")
    ∧ finalContents evs = ["Error running agent: " ++ e.pyStr] := by
  unfold run_agent_with_streaming at hstream
  rw [if_neg (by simp [hcfg])] at hstream
  refine ⟨streamLoop_error_terminal resp dispatch fuel 0 [Message.human question]
    e evs hloop hstream, ?_⟩
  obtain ⟨evs', hevs', hfin⟩ := streamLoop_finalContents resp dispatch fuel 0
    [Message.human question] (.error e) hloop
  have : evs' = evs := Option.some.inj (hevs'.symm.trans hstream)
  rw [← this, hfin]
  rfl

/-- C9 witness: the unknown-tool turn raises a `KeyError` in round 0 and the
stream ends with the single terminal error event. -/
theorem c9_witness :
    ((!demoConfig.complete && !true) = false)
    ∧ agentLoop unknownToolResp (call_tool demoRegistry) 5 0 [Message.human "q"] =
        some (.error (.keyError "bogus_tool"))
    ∧ run_agent_with_streaming unknownToolResp (call_tool demoRegistry) 5 true "q"
        demoConfig = some unknownToolEvs
    ∧ ((∃ pre, unknownToolEvs =
          pre ++ [errorEvent ("Error running agent: " ++ AgentErr.pyStr (.keyError "bogus_tool"))]
          ∧ ∀ ev ∈ pre, ev.is_final = false ∧ ev.step_type ≠ "error")
       ∧ finalContents unknownToolEvs =
          ["Error running agent: " ++ AgentErr.pyStr (.keyError "bogus_tool")]) :=
  ⟨by decide, by rfl, by rfl,
   c9_stream_exception_yields_single_terminal_error unknownToolResp
     (call_tool demoRegistry) 5 true "q" demoConfig (.keyError "bogus_tool")
     unknownToolEvs (by decide) (by rfl) (by rfl)⟩

/-- C6: a call to `run_agent` while the agent is uninitialized with at least
one of the four configuration parameters missing (Python-falsy) returns the
literal configuration-required error string, for every model oracle, every
dispatcher and every fuel budget (in particular fuel 0: no model round and no
tool dispatch is ever consulted), and returns it as a value, not an
exception. -/
theorem c6_uninitialized_missing_config_returns_error
    (resp : Nat → AIMessage) (dispatch : ToolCall → Except AgentErr ToolMessage)
    (fuel : Nat) (question : String) (cfg : Config)
    (hmiss : truthy cfg.openai_api_key = false ∨ truthy cfg.neo4j_uri = false ∨
      truthy cfg.neo4j_username = false ∨ truthy cfg.neo4j_password = false) :
    run_agent resp dispatch fuel false question cfg = some configErrorMsg := by
  have hc : cfg.complete = false := by
    rcases hmiss with h | h | h | h <;> simp [Config.complete, h]
  simp [run_agent, hc]

/-- C6 witness: the scenario of the spec, a configuration missing only the
graph password. -/
theorem c6_witness :
    run_agent (fun _ => ⟨"unused", []⟩) (fun tc => .ok ⟨"unused", tc.id⟩) 7 false
      "What adverse events are reported for TRAMADOL?"
      ⟨some "sk-key", some "bolt://localhost", some "neo4j", none⟩ =
      some configErrorMsg :=
  c6_uninitialized_missing_config_returns_error _ _ 7 _ _ (by simp [truthy])

/-- C7: `initialize_agent_with_config` is idempotent: once a first call has
completed (it always completes), a second call with identical or different
arguments and backends is a no-op leaving the whole module state — tool
instances, model, registry, `_initialized` flag, environment — unchanged. -/
theorem c7_init_idempotent (b1 b2 : Backends)
    (key1 uri1 user1 pass1 key2 uri2 user2 pass2 : String) (s : AgentState) :
    init_agent_with_config b2 key2 uri2 user2 pass2
        (init_agent_with_config b1 key1 uri1 user1 pass1 s) =
      init_agent_with_config b1 key1 uri1 user1 pass1 s := by
  by_cases h : s.inited <;> simp [init_agent_with_config, h]

/-- C4 counterexample: a request for the unregistered name "bogus_tool"
makes `call_tool` raise a bare `KeyError` (there is no unknown-tool defence
at the dispatch site), and this aborts the turn: even though round 1 of the
response sequence is a ready final answer, the loop ends with the exception
and `run_agent` returns the outer boundary's error rendering instead of any
final answer. -/
theorem c4_unknown_tool_counterexample :
    call_tool demoRegistry { name := "bogus_tool", args := "x", id := "id9" } =
      .error (.keyError "bogus_tool")
    ∧ agentLoop unknownToolResp (call_tool demoRegistry) 5 0 [Message.human "q"] =
        some (.error (.keyError "bogus_tool"))
    ∧ run_agent unknownToolResp (call_tool demoRegistry) 5 true "q" demoConfig =
        some ("Error running agent: " ++ pyQuote ++ "bogus_tool" ++ pyQuote)
    ∧ run_agent unknownToolResp (call_tool demoRegistry) 5 true "q" demoConfig ≠
        some (unknownToolResp 1).content :=
  ⟨rfl, rfl, rfl, by decide⟩

/-- C4 (amended): with a non-empty registry, dispatching a tool invocation
request whose name is absent from the manifest fails with a `KeyError`
carrying the name; the exception aborts the turn, and it reaches the caller
of `run_agent` not as an exception but as the outer boundary's
`"Error running agent: " + str(KeyError)` string. -/
theorem c4_unknown_tool_keyerror_aborts_turn
    (reg : List (String × (String → String))) (tc : ToolCall) (resp : Nat → AIMessage)
    (fuel : Nat) (cfg : Config) (question : String)
    (hreg : reg.isEmpty = false)
    (habs : reg.lookup tc.name = none)
    (h0 : (resp 0).tool_calls = [tc]) :
    call_tool reg tc = .error (.keyError tc.name)
    ∧ run_agent resp (call_tool reg) (fuel + 1) true question cfg =
        some ("Error running agent: " ++ pyQuote ++ tc.name ++ pyQuote) := by
  have hct : call_tool reg tc = .error (.keyError tc.name) := by
    simp [call_tool, hreg, habs]
  refine ⟨hct, ?_⟩
  have hloop : agentLoop resp (call_tool reg) (fuel + 1) 0 [Message.human question] =
      some (.error (.keyError tc.name)) := by
    simp [agentLoop, h0, runBatch, hct]
  simp [run_agent, hloop, loopOutStr, AgentErr.pyStr, String.append_assoc]

/-- C4 witness for the amended claim, at the unknown-tool fixture. -/
theorem c4_witness :
    demoRegistry.isEmpty = false
    ∧ demoRegistry.lookup "bogus_tool" = none
    ∧ run_agent unknownToolResp (call_tool demoRegistry) 5 true "q" demoConfig =
        some ("Error running agent: " ++ pyQuote ++ "bogus_tool" ++ pyQuote) :=
  ⟨by decide, by rfl,
   (c4_unknown_tool_keyerror_aborts_turn demoRegistry
     { name := "bogus_tool", args := "x", id := "id9" } unknownToolResp 4 demoConfig
     "q" (by decide) (by rfl) (by rfl)).2⟩

/-- C5: for each of the three registered tools, when its underlying callable
raises, the dispatch result is a regular `ToolMessage` (no exception) whose
text starts with an error indicator — the wrapper's catch branch — and the
loop proceeds to the next model round rather than aborting: a turn whose
round 0 calls the failing FDA tool still reaches round 1 and finishes with
round 1's response. -/
theorem c5_tool_exception_contained_as_error_text
    (b : Backends) (key uri user pass : String) (s : AgentState)
    (args q cid : String) (emsgF emsgN emsgP : String)
    (msgs : List Message) (resp : Nat → AIMessage)
    (hs : s.inited = false) (hpdf : b.pdf_ok = true) (hneo : b.neo4j_ok = true)
    (hF : b.fdaImpl args = .error emsgF)
    (hN : b.chainInvoke q = .error emsgN)
    (hP : b.pdfSearch q = .error emsgP)
    (h0 : (resp 0).tool_calls =
      [{ name := "fda_adverse_events_tool", args := args, id := cid }])
    (h1 : (resp 1).tool_calls = []) :
    call_tool (init_agent_with_config b key uri user pass s).tools_by_name
        { name := "fda_adverse_events_tool", args := args, id := cid } =
      .ok { content := "Error retrieving FDA data: " ++ emsgF, tool_call_id := cid }
    ∧ call_tool (init_agent_with_config b key uri user pass s).tools_by_name
        { name := "neo4j_query_tool", args := q, id := cid } =
      .ok { content := "Error: " ++ emsgN, tool_call_id := cid }
    ∧ call_tool (init_agent_with_config b key uri user pass s).tools_by_name
        { name := "pdf_search_tool", args := q, id := cid } =
      .ok { content := "Error searching PDF: " ++ emsgP, tool_call_id := cid }
    ∧ agentLoop resp
        (call_tool (init_agent_with_config b key uri user pass s).tools_by_name)
        2 0 msgs =
      some (.ok (resp 1, add_messages msgs
        [Message.ai (resp 0),
         Message.tool { content := "Error retrieving FDA data: " ++ emsgF,
                        tool_call_id := cid }])) := by
  have hfda : call_tool (init_agent_with_config b key uri user pass s).tools_by_name
      { name := "fda_adverse_events_tool", args := args, id := cid } =
      .ok { content := "Error retrieving FDA data: " ++ emsgF, tool_call_id := cid } := by
    simp [init_agent_with_config, hs, buildRegistry, call_tool, List.lookup,
      fda_adverse_events_tool, hF]
  refine ⟨hfda, ?_, ?_, ?_⟩
  · simp [init_agent_with_config, hs, buildRegistry, call_tool, List.lookup,
      neo4j_query_tool, ask_question, hneo, hN]
  · simp [init_agent_with_config, hs, buildRegistry, call_tool, List.lookup,
      pdf_search_tool, hpdf, hP]
  · simp [agentLoop, h0, h1, runBatch, hfda, add_messages]

/-- C5 witness: the three raising backends and the FDA-calling turn. -/
theorem c5_witness :
    call_tool (init_agent_with_config raisingBackends "k" "u" "n" "p"
        reset_state).tools_by_name
        { name := "fda_adverse_events_tool", args := "TRAMADOL", id := "c7" } =
      .ok { content := "Error retrieving FDA data: ConnectionError", tool_call_id := "c7" }
    ∧ agentLoop fdaOnlyResp
        (call_tool (init_agent_with_config raisingBackends "k" "u" "n" "p"
          reset_state).tools_by_name) 2 0 [Message.human "q"] =
      some (.ok (fdaOnlyResp 1, add_messages [Message.human "q"]
        [Message.ai (fdaOnlyResp 0),
         Message.tool { content := "Error retrieving FDA data: ConnectionError",
                        tool_call_id := "c7" }])) :=
  ⟨(c5_tool_exception_contained_as_error_text raisingBackends "k" "u" "n" "p"
      reset_state "TRAMADOL" "q" "c7" "ConnectionError" "ServiceUnavailable"
      "IndexError" [Message.human "q"] fdaOnlyResp rfl rfl rfl rfl rfl rfl
      (by rfl) (by rfl)).1,
   (c5_tool_exception_contained_as_error_text raisingBackends "k" "u" "n" "p"
      reset_state "TRAMADOL" "q" "c7" "ConnectionError" "ServiceUnavailable"
      "IndexError" [Message.human "q"] fdaOnlyResp rfl rfl rfl rfl rfl rfl
      (by rfl) (by rfl)).2.2.2⟩

/-- C8 (evaluation at the failing input): a query for drug_name "ASPIRIN"
against a response whose first record lists ASPIRIN itself (plus a tramadol
co-medication) yields `drug_names = ["Tramadol HCl"]` — the queried drug's
own name is dropped and only names containing the hard-coded literal
"TRAMADOL" are kept — while the scalar sentinels behave as claimed
(`"N/A"` for the missing report id, date and outcome) and the empty second
record still yields one record. -/
theorem c8_drug_names_filter_hardcodes_tramadol :
    get_adverse_events "ASPIRIN" 10 aspirinApiResponse =
      [{ receivedate := "20240312", safetyreportid := "12345",
         drug_names := ["Tramadol HCl"],
         reactions := ["NAUSEA"], outcomes := ["N/A"] },
       { receivedate := "N/A", safetyreportid := "N/A",
         drug_names := [], reactions := [], outcomes := [] }] := by decide

/-- C10: setup with any four parameters always completes and marks the agent
initialized, even when the PDF vector-store stage or the Neo4j stage fails
(their exceptions are swallowed); dispatch still succeeds afterwards, the
failed capability surfacing only as that tool's "not initialized" error
string. -/
theorem c10_setup_swallows_tool_init_failures
    (b : Backends) (key uri user pass q cid : String) (s : AgentState)
    (hs : s.inited = false) :
    (init_agent_with_config b key uri user pass s).inited = true
    ∧ (b.pdf_ok = false →
        call_tool (init_agent_with_config b key uri user pass s).tools_by_name
            { name := "pdf_search_tool", args := q, id := cid } =
          .ok { content := "Error: PDF vector store not initialized. The PDF file may not have been loaded successfully during initialization.",
                tool_call_id := cid })
    ∧ (b.neo4j_ok = false →
        call_tool (init_agent_with_config b key uri user pass s).tools_by_name
            { name := "neo4j_query_tool", args := q, id := cid } =
          .ok { content := "Error: QA chain not initialized", tool_call_id := cid }) := by
  refine ⟨by simp [init_agent_with_config, hs], ?_, ?_⟩
  · intro hpdf
    simp [init_agent_with_config, hs, buildRegistry, call_tool, List.lookup,
      pdf_search_tool, hpdf]
  · intro hneo
    simp [init_agent_with_config, hs, buildRegistry, call_tool, List.lookup,
      neo4j_query_tool, ask_question, hneo]

/-- C10 witness: both setup stages fail, setup completes anyway, and each
capability degrades to its per-tool error string. -/
theorem c10_witness :
    (init_agent_with_config failedSetupBackends "k" "u" "n" "p" reset_state).inited = true
    ∧ call_tool (init_agent_with_config failedSetupBackends "k" "u" "n" "p"
          reset_state).tools_by_name
          { name := "pdf_search_tool", args := "q", id := "c1" } =
        .ok { content := "Error: PDF vector store not initialized. The PDF file may not have been loaded successfully during initialization.",
              tool_call_id := "c1" }
    ∧ call_tool (init_agent_with_config failedSetupBackends "k" "u" "n" "p"
          reset_state).tools_by_name
          { name := "neo4j_query_tool", args := "q", id := "c1" } =
        .ok { content := "Error: QA chain not initialized", tool_call_id := "c1" } :=
  ⟨(c10_setup_swallows_tool_init_failures failedSetupBackends "k" "u" "n" "p" "q" "c1"
      reset_state rfl).1,
   (c10_setup_swallows_tool_init_failures failedSetupBackends "k" "u" "n" "p" "q" "c1"
      reset_state rfl).2.1 rfl,
   (c10_setup_swallows_tool_init_failures failedSetupBackends "k" "u" "n" "p" "q" "c1"
      reset_state rfl).2.2 rfl⟩

end AgentSpec
